import Mathlib

/-!
Verification of the COCO Vision visual regression comparison engine
(`coco_vision.py`): a shallow embedding of the pixel diff engine, the
perceptual-hash comparison, the classifier, the comparison orchestrator and
the batch auditor, with theorems settling the specification's claims.

Numeric conventions: machine floats are modelled as rationals (`ℚ`); the
source's literals `0.1`, `0.3` denote the exact values 1/10, 3/10 (for 8-bit
channel values `int(c * 0.3)` coincides with `⌊3·c/10⌋` for every
`c ∈ [0, 255]`, so the rational model is exact on the reachable inputs).
-/

/-- An RGB pixel: three 8-bit channels (values 0..255 when valid). -/
structure RGB where
  r : Nat
  g : Nat
  b : Nat
deriving DecidableEq, Repr

/-- An image buffer in canonical form (a PIL image after `convert('RGB')`):
width, height, and a total pixel lookup. Only coordinates with `x < width`
and `y < height` are meaningful. -/
structure Img where
  width : Nat
  height : Nat
  pixel : Nat → Nat → RGB

/-- Every channel of every pixel is an 8-bit value. -/
def Img.valid (a : Img) : Prop :=
  ∀ x y, (a.pixel x y).r ≤ 255 ∧ (a.pixel x y).g ≤ 255 ∧ (a.pixel x y).b ≤ 255

/-- Squared per-channel difference of two pixels, summed over the three
channels: one pixel's contribution to `(arr1.astype(float) - arr2.astype(float)) ** 2`. -/
def sqDiff (p q : RGB) : ℚ :=
  ((p.r : ℚ) - q.r) ^ 2 + ((p.g : ℚ) - q.g) ^ 2 + ((p.b : ℚ) - q.b) ^ 2

/-- Sum of squared channel differences over the whole comparison frame
(the first image's dimensions). -/
def channelSqSum (a b : Img) : ℚ :=
  ∑ y ∈ Finset.range a.height, ∑ x ∈ Finset.range a.width,
    sqDiff (a.pixel x y) (b.pixel x y)

/-- `mse = np.mean((arr1.astype(float) - arr2.astype(float)) ** 2)`:
the mean over the `height × width × 3` array entries. -/
def mse (a b : Img) : ℚ :=
  channelSqSum a b / ((a.height : ℚ) * a.width * 3)

/-- `similarity = 1 - (mse / max_mse)` with `max_mse = 255 ** 2`
(coco_vision.py, `ImageComparator.compare`). -/
def similarity (a b : Img) : ℚ :=
  1 - mse a b / (255 ^ 2)

/-- `diff_mask = np.any(diff_arr > 10, axis=2)`: a pixel is flagged when any
channel's absolute difference (`ImageChops.difference`) exceeds 10. -/
def maskAt (a b : Img) (x y : Nat) : Bool :=
  decide (10 < Nat.dist (a.pixel x y).r (b.pixel x y).r) ||
  decide (10 < Nat.dist (a.pixel x y).g (b.pixel x y).g) ||
  decide (10 < Nat.dist (a.pixel x y).b (b.pixel x y).b)

/-- `pixel_diff_count = np.sum(diff_mask)`. -/
def diffPixelCount (a b : Img) : Nat :=
  ∑ y ∈ Finset.range a.height,
    ((Finset.range a.width).filter (fun x => maskAt a b x y = true)).card

/-- `int(c * 0.3)`: for 8-bit channel values the float computation truncates
to `⌊3·c/10⌋` exactly. -/
def fade (c : Nat) : Nat := 3 * c / 10

/-- `sum(abs(a - b) for a, b in zip(p1, p2)) > 30`: the renderer's own
per-pixel difference test (distinct from the diff mask's test). -/
def highlightAt (p q : RGB) : Bool :=
  decide (30 < Nat.dist p.r q.r + Nat.dist p.g q.g + Nat.dist p.b q.b)

/-- The highlight color `(255, 0, 100)`. -/
def highlightColor : RGB := ⟨255, 0, 100⟩

/-- The diff-image rendering loop of `ImageComparator.compare`: highlighted
pixels get `highlightColor`, all others the faded original of the first
image. -/
def renderDiff (a b : Img) : Img :=
  { width := a.width
    height := a.height
    pixel := fun x y =>
      if highlightAt (a.pixel x y) (b.pixel x y) then highlightColor
      else ⟨fade (a.pixel x y).r, fade (a.pixel x y).g, fade (a.pixel x y).b⟩ }

/-- The triple returned by `ImageComparator.compare`, with the rendered diff
image carried alongside the path it is saved to. -/
structure CompareOut where
  similarity : ℚ
  pixel_diff_count : Nat
  diff_image_path : Option String
  diff_image : Option Img

/-- `ImageComparator.compare` on the equal-dimensions path. (When dimensions
differ the source first resamples the second image with PIL's LANCZOS filter,
external library code not modelled here; every theorem about pixel content is
stated for same-dimension inputs, on which no resampling happens.) -/
def ImageComparator.compare (a b : Img) (output_diff_path : Option String) :
    CompareOut :=
  { similarity := similarity a b
    pixel_diff_count := diffPixelCount a b
    diff_image_path := output_diff_path
    diff_image := output_diff_path.map (fun _ => renderDiff a b) }

/-- Number of set bits in a 4-bit value (one hex digit of a hash). -/
def popcount4 (n : Nat) : Nat :=
  n % 2 + n / 2 % 2 + n / 4 % 2 + n / 8 % 2

/-- `distance = h1 - h2` in imagehash: the Hamming distance between the two
bit arrays, i.e. the sum over corresponding hex digits of the number of
differing bits. Hashes are modelled as lists of hex-digit values. -/
def hashDistance (h1 h2 : List Nat) : Nat :=
  (List.zipWith (fun a b => popcount4 (a ^^^ b)) h1 h2).sum

/-- `ImageComparator.compare_hashes` on the imagehash path:
`max_distance = len(hash1) * 4` and the function returns
`1 - (distance / max_distance)`. -/
def ImageComparator.compare_hashes (h1 h2 : List Nat) : ℚ :=
  1 - (hashDistance h1 h2 : ℚ) / ((h1.length : ℚ) * 4)

/-- The comparison outcomes (`ComparisonResult` enum). -/
inductive ComparisonResult
  | PASS
  | FAIL
  | WARNING
  | ERROR
deriving DecidableEq, Repr

/-- The semantic analyzer's record, as far as classification consumes it:
an optional `"recommendation"` entry (`None` models a dict without the key). -/
structure SemanticAnalysis where
  recommendation : Option String

/-- The threshold rule of `CocoVision.compare` / `compare_local`:
PASS when `similarity >= threshold`, WARNING when
`similarity >= threshold - 0.1`, otherwise FAIL. -/
def classifyBase (s t : ℚ) : ComparisonResult :=
  if t ≤ s then .PASS
  else if t - 1 / 10 ≤ s then .WARNING
  else .FAIL

/-- The Gemini override of `CocoVision.compare`: when a recommendation is
present, `"BLOCK"` forces FAIL and `"FIX"` forces WARNING; any other value
leaves the base outcome. -/
def applyOverride (base : ComparisonResult) (sem : Option SemanticAnalysis) :
    ComparisonResult :=
  match sem with
  | none => base
  | some a =>
    match a.recommendation with
    | none => base
    | some rec => if rec = "BLOCK" then .FAIL
                  else if rec = "FIX" then .WARNING
                  else base

/-- The full classification step of `CocoVision.compare`: base rule, then
the semantic override. -/
def classify (s t : ℚ) (sem : Option SemanticAnalysis) : ComparisonResult :=
  applyOverride (classifyBase s t) sem

/-- The `VisualDiff` record, restricted to the fields the claims are about
(the id, timestamp and duration fields are wall-clock effects). -/
structure VisualDiff where
  figma_source : String
  code_source : String
  similarity_score : ℚ
  threshold : ℚ
  result : ComparisonResult
  diff_image_path : Option String
  pixel_diff_count : Nat
  total_pixels : Nat
  semantic_analysis : Option SemanticAnalysis

/-- The responses of the external collaborators consumed by one run of
`CocoVision.compare`: the Figma export and the screenshot capture (`none`
models the acquisition step failing), the analyzer's judgment, and the
`use_gemini` flag. -/
structure CompareEnv where
  figma_source : String
  code_source : String
  figmaImg : Option Img
  codeImg : Option Img
  semantic : Option SemanticAnalysis
  use_gemini : Bool

/-- `CocoVision.compare`: when both images were acquired the comparator runs
(with a diff output path always supplied) and, if `use_gemini`, the semantic
analysis is consulted; when either acquisition failed, similarity is 0,
pixel diff 0, no diff image, no semantic analysis. The outcome is the base
threshold rule followed by the semantic override; `total_pixels` is the
hard-coded 0 of the source. -/
def CocoVision.compare (threshold : ℚ) (env : CompareEnv) : VisualDiff :=
  let acq : ℚ × Nat × Option String :=
    match env.figmaImg, env.codeImg with
    | some a, some b =>
      let c := ImageComparator.compare a b (some (env.figma_source ++ "_diff.png"))
      (c.similarity, c.pixel_diff_count, c.diff_image_path)
    | _, _ => (0, 0, none)
  let sem : Option SemanticAnalysis :=
    match env.figmaImg, env.codeImg with
    | some _, some _ => if env.use_gemini then env.semantic else none
    | _, _ => none
  { figma_source := env.figma_source
    code_source := env.code_source
    similarity_score := acq.1
    threshold := threshold
    result := classify acq.1 threshold sem
    diff_image_path := acq.2.2
    pixel_diff_count := acq.2.1
    total_pixels := 0
    semantic_analysis := sem }

/-- `CocoVision.compare_local`: both images are given directly; the outcome
is the base threshold rule only — `compare_local` applies no semantic
override. `total_pixels` is again the hard-coded 0. -/
def CocoVision.compare_local (threshold : ℚ) (figma_source code_source : String)
    (figmaImg codeImg : Img) (semantic : Option SemanticAnalysis)
    (use_gemini : Bool) : VisualDiff :=
  let c := ImageComparator.compare figmaImg codeImg
    (some (code_source ++ "_diff.png"))
  { figma_source := figma_source
    code_source := code_source
    similarity_score := c.similarity
    threshold := threshold
    result := classifyBase c.similarity threshold
    diff_image_path := c.diff_image_path
    pixel_diff_count := c.pixel_diff_count
    total_pixels := 0
    semantic_analysis := if use_gemini then semantic else none }

/-- The `VisionReport` summary record. -/
structure VisionReport where
  total_comparisons : Nat
  passed : Nat
  failed : Nat
  warnings : Nat
  average_similarity : ℚ
  comparisons : List VisualDiff

/-- `CocoVision.audit_batch`: run `compare` over the requests in order,
then count PASS / FAIL / WARNING results and average the similarity scores
(`0` on an empty batch, guarding the division). -/
def CocoVision.audit_batch (threshold : ℚ) (envs : List CompareEnv) :
    VisionReport :=
  let results := envs.map (CocoVision.compare threshold)
  { total_comparisons := results.length
    passed := results.countP (fun r => decide (r.result = .PASS))
    failed := results.countP (fun r => decide (r.result = .FAIL))
    warnings := results.countP (fun r => decide (r.result = .WARNING))
    average_similarity :=
      if results.isEmpty then 0
      else (results.map (fun r => r.similarity_score)).sum / (results.length : ℚ)
    comparisons := results }

/-- C1: with no semantic judgment present, classification is PASS iff
`s ≥ t`, FAIL iff `s < t - 0.10`, and WARNING iff `t - 0.10 ≤ s < t`. -/
theorem C1_classify_base (s t : ℚ) :
    (classify s t none = .PASS ↔ t ≤ s) ∧
    (classify s t none = .FAIL ↔ s < t - 1 / 10) ∧
    (classify s t none = .WARNING ↔ t - 1 / 10 ≤ s ∧ s < t) := by
  unfold classify applyOverride classifyBase
  refine ⟨?_, ?_, ?_⟩ <;> split_ifs with h1 h2 <;> simp_all <;> linarith

/-- Severity scale used by the spec's override-monotonicity wording
(PASS is least severe, then WARNING, FAIL, ERROR). Modelled from the spec:
the source has no explicit severity scale. -/
def specSeverity : ComparisonResult → Nat
  | .PASS => 0
  | .WARNING => 1
  | .FAIL => 2
  | .ERROR => 3

/-- C2 counterexample: at similarity 0 and threshold 0.95 the base outcome is
FAIL, but a FIX judgment yields WARNING — strictly less severe than the
outcome without a judgment, so FIX does not leave a base-rule FAIL
unchanged. -/
theorem C2_counterexample :
    classify 0 (95 / 100) (some ⟨some ("FIX")⟩) = .WARNING ∧
    classify 0 (95 / 100) none = .FAIL ∧
    specSeverity (classify 0 (95 / 100) (some ⟨some ("FIX")⟩)) <
      specSeverity (classify 0 (95 / 100) none) := by
  have h1 : classify 0 (95 / 100) (some ⟨some ("FIX")⟩) = .WARNING := rfl
  have h2 : classify 0 (95 / 100) none = .FAIL := by
    norm_num [classify, classifyBase, applyOverride]
  exact ⟨h1, h2, by rw [h1, h2]; decide⟩

/-- C2 amended: a FIX judgment forces the outcome to exactly WARNING,
whatever the base rule gave: it upgrades a base-rule PASS to WARNING, leaves
WARNING unchanged, and downgrades a base-rule FAIL to WARNING. -/
theorem C2_fix_forces_warning (s t : ℚ) :
    classify s t (some ⟨some ("FIX")⟩) = .WARNING := by
  rfl

/-- A concrete comparison request whose screenshot capture failed: the Figma
export succeeded (a 1×1 white image) but the code image is unavailable. -/
def envCodeUnavailable : CompareEnv :=
  ⟨"key:node", "http://localhost", some ⟨1, 1, fun _ _ => ⟨255, 255, 255⟩⟩,
    none, none, true⟩

/-- A concrete comparison request whose Figma export failed while the
screenshot capture succeeded (a 1×1 black image). -/
def envFigmaUnavailable : CompareEnv :=
  ⟨"k:n", "http://a", none, some ⟨1, 1, fun _ _ => ⟨0, 0, 0⟩⟩, none, false⟩

/-- C3 counterexample: the screenshot capture fails (second source
unavailable) at threshold 0.95 — the outcome is FAIL, not ERROR, with
similarity 0 and no diff image. -/
theorem C3_counterexample :
    (CocoVision.compare (95 / 100) envCodeUnavailable).result = .FAIL ∧
    (CocoVision.compare (95 / 100) envCodeUnavailable).result ≠ .ERROR ∧
    (CocoVision.compare (95 / 100) envCodeUnavailable).similarity_score = 0 ∧
    (CocoVision.compare (95 / 100) envCodeUnavailable).diff_image_path
      = none := by
  have h : (CocoVision.compare (95 / 100) envCodeUnavailable).result
      = ComparisonResult.FAIL := by
    norm_num [CocoVision.compare, envCodeUnavailable, classify, classifyBase,
      applyOverride]
  refine ⟨h, by rw [h]; decide, ?_, ?_⟩ <;>
    norm_num [CocoVision.compare, envCodeUnavailable]

/-- C3 amended: when either source image could not be acquired, similarity is
reported as 0, no diff image and no semantic analysis are produced, and the
outcome is the base rule applied at similarity 0 — FAIL for every threshold
above 0.10 — never ERROR. -/
theorem C3_unavailable_source (t : ℚ) (env : CompareEnv)
    (hacq : env.figmaImg = none ∨ env.codeImg = none) (ht : 1 / 10 < t) :
    (CocoVision.compare t env).result = .FAIL ∧
    (CocoVision.compare t env).similarity_score = 0 ∧
    (CocoVision.compare t env).diff_image_path = none ∧
    (CocoVision.compare t env).semantic_analysis = none := by
  have hres : classify 0 t none = .FAIL := by
    unfold classify applyOverride classifyBase
    split_ifs <;> first | rfl | linarith
  rcases hacq with h | h <;>
    rcases hf : env.figmaImg with _ | a <;>
    rcases hc : env.codeImg with _ | b <;>
    simp_all [CocoVision.compare]

/-- C3 witness: the amended statement at a concrete failing acquisition. -/
theorem C3_unavailable_source_witness :
    (CocoVision.compare (95 / 100) envFigmaUnavailable).result = .FAIL ∧
    (CocoVision.compare (95 / 100) envFigmaUnavailable).similarity_score
      = 0 ∧
    (CocoVision.compare (95 / 100) envFigmaUnavailable).diff_image_path
      = none ∧
    (CocoVision.compare (95 / 100) envFigmaUnavailable).semantic_analysis
      = none :=
  C3_unavailable_source (95 / 100) envFigmaUnavailable (Or.inl rfl)
    (by norm_num)

theorem popcount4_le (n : Nat) : popcount4 n ≤ 4 := by
  unfold popcount4
  omega

theorem popcount4_zero : popcount4 0 = 0 := rfl

theorem hashDistance_self (l : List Nat) : hashDistance l l = 0 := by
  induction l with
  | nil => rfl
  | cons a l ih =>
    simp only [hashDistance, List.zipWith_cons_cons, List.sum_cons,
      Nat.xor_self, popcount4_zero] at *
    omega

theorem hashDistance_le (h1 h2 : List Nat) (hlen : h2.length = h1.length) :
    hashDistance h1 h2 ≤ h1.length * 4 := by
  induction h1 generalizing h2 with
  | nil => simp [hashDistance]
  | cons a l ih =>
    cases h2 with
    | nil => simp at hlen
    | cons b m =>
      simp only [List.length_cons, Nat.succ.injEq] at hlen
      have h := ih m hlen
      have hp := popcount4_le (a ^^^ b)
      simp only [hashDistance, List.zipWith_cons_cons, List.sum_cons,
        List.length_cons] at *
      omega

/-- C4 counterexample: comparing a hash with itself returns 1, not 0 — the
function returns a normalized similarity, not a normalized distance. -/
theorem C4_counterexample :
    ImageComparator.compare_hashes [10, 5] [10, 5] = 1 ∧
    ImageComparator.compare_hashes [10, 5] [10, 5] ≠ 0 := by
  have h : ImageComparator.compare_hashes [10, 5] [10, 5] = 1 := by
    norm_num [ImageComparator.compare_hashes, hashDistance_self]
  exact ⟨h, by rw [h]; norm_num⟩

/-- C4 amended: for equal-length nonempty hashes, `compare_hashes` returns
the normalized Hamming similarity `1 - distance / maxDistance`, which lies
in [0, 1]; comparing a hash with itself returns 1 (not 0). -/
theorem C4_hash_similarity (h1 h2 : List Nat) (hlen : h2.length = h1.length)
    (hne : h1 ≠ []) :
    0 ≤ ImageComparator.compare_hashes h1 h2 ∧
    ImageComparator.compare_hashes h1 h2 ≤ 1 ∧
    ImageComparator.compare_hashes h1 h1 = 1 := by
  have hL : 0 < h1.length := List.length_pos.mpr hne
  have hLQ : (0 : ℚ) < (h1.length : ℚ) * 4 := by positivity
  have hd : hashDistance h1 h2 ≤ h1.length * 4 := hashDistance_le h1 h2 hlen
  refine ⟨?_, ?_, ?_⟩
  · unfold ImageComparator.compare_hashes
    rw [sub_nonneg, div_le_one hLQ]
    exact_mod_cast hd
  · unfold ImageComparator.compare_hashes
    have : (0 : ℚ) ≤ (hashDistance h1 h2 : ℚ) / ((h1.length : ℚ) * 4) := by
      positivity
    linarith
  · unfold ImageComparator.compare_hashes
    rw [hashDistance_self]
    simp

/-- C4 witness: the amended statement at concrete two-digit hashes. -/
theorem C4_hash_similarity_witness :
    0 ≤ ImageComparator.compare_hashes [10, 5] [3, 12] ∧
    ImageComparator.compare_hashes [10, 5] [3, 12] ≤ 1 ∧
    ImageComparator.compare_hashes [10, 5] [10, 5] = 1 :=
  C4_hash_similarity [10, 5] [3, 12] (by decide) (by decide)

/-- A 1×1 image whose red channel differs from black by 11: flagged by the
diff mask (one channel above 10) but below the renderer's sum-above-30
test. -/
def img11Red : Img := ⟨1, 1, fun _ _ => ⟨11, 0, 0⟩⟩

/-- A 1×1 all-black image. -/
def img11Black : Img := ⟨1, 1, fun _ _ => ⟨0, 0, 0⟩⟩

/-- A 1×1 all-white image. -/
def img11White : Img := ⟨1, 1, fun _ _ => ⟨255, 255, 255⟩⟩

/-- C5 counterexample: a pixel flagged by the diff mask (channel difference
11 > 10) is NOT rendered in the highlight color — the renderer uses its own
sum-of-channels > 30 test and fades this pixel instead. -/
theorem C5_counterexample :
    maskAt img11Red img11Black 0 0 = true ∧
    (renderDiff img11Red img11Black).pixel 0 0 ≠ highlightColor ∧
    (renderDiff img11Red img11Black).pixel 0 0 = ⟨3, 0, 0⟩ := by
  refine ⟨?_, ?_, ?_⟩ <;> decide

theorem fade_le_76 (c : Nat) (h : c ≤ 255) : fade c ≤ 76 := by
  unfold fade
  omega

/-- C5 amended: the renderer highlights exactly the pixels whose summed
per-channel absolute difference exceeds 30 — a strictly stronger condition
than the diff mask's any-channel-above-10 test (every highlighted pixel is
mask-flagged but not conversely) — and renders every non-highlighted pixel
at reduced brightness `⌊0.3·c⌋` of the first image's channels. -/
theorem C5_render_rule (a b : Img) (x y : Nat)
    (hr : (a.pixel x y).r ≤ 255) :
    ((renderDiff a b).pixel x y = highlightColor ↔
      30 < Nat.dist (a.pixel x y).r (b.pixel x y).r +
        Nat.dist (a.pixel x y).g (b.pixel x y).g +
        Nat.dist (a.pixel x y).b (b.pixel x y).b) ∧
    (highlightAt (a.pixel x y) (b.pixel x y) = true → maskAt a b x y = true) ∧
    (highlightAt (a.pixel x y) (b.pixel x y) = false →
      (renderDiff a b).pixel x y =
        ⟨fade (a.pixel x y).r, fade (a.pixel x y).g,
          fade (a.pixel x y).b⟩) := by
  refine ⟨?_, ?_, ?_⟩
  · unfold renderDiff highlightAt
    by_cases h : 30 < Nat.dist (a.pixel x y).r (b.pixel x y).r +
        Nat.dist (a.pixel x y).g (b.pixel x y).g +
        Nat.dist (a.pixel x y).b (b.pixel x y).b
    · simp [h]
    · have h76 := fade_le_76 ((a.pixel x y).r) hr
      simp only [h, iff_false, highlightColor, RGB.mk.injEq, decide_eq_true_eq]
      rw [if_neg (by simp [h])]
      simp only [RGB.mk.injEq, not_and]
      intro h1
      omega
  · unfold highlightAt maskAt
    intro h
    simp only [decide_eq_true_eq] at h
    simp only [Bool.or_eq_true, decide_eq_true_eq]
    omega
  · unfold renderDiff
    intro h
    simp [h]

/-- C5 witness: the amended render rule at a concrete pixel. -/
theorem C5_render_rule_witness :
    ((renderDiff img11Red img11Black).pixel 0 0 = highlightColor ↔
      30 < Nat.dist (img11Red.pixel 0 0).r (img11Black.pixel 0 0).r +
        Nat.dist (img11Red.pixel 0 0).g (img11Black.pixel 0 0).g +
        Nat.dist (img11Red.pixel 0 0).b (img11Black.pixel 0 0).b) ∧
    (highlightAt (img11Red.pixel 0 0) (img11Black.pixel 0 0) = true →
      maskAt img11Red img11Black 0 0 = true) ∧
    (highlightAt (img11Red.pixel 0 0) (img11Black.pixel 0 0) = false →
      (renderDiff img11Red img11Black).pixel 0 0 =
        ⟨fade (img11Red.pixel 0 0).r, fade (img11Red.pixel 0 0).g,
          fade (img11Red.pixel 0 0).b⟩) :=
  C5_render_rule img11Red img11Black 0 0 (by decide)

theorem chanSq_le (m n : Nat) (hm : m ≤ 255) (hn : n ≤ 255) :
    ((m : ℚ) - n) ^ 2 ≤ 255 ^ 2 := by
  have h1 : (m : ℚ) ≤ 255 := by exact_mod_cast hm
  have h2 : (n : ℚ) ≤ 255 := by exact_mod_cast hn
  have h3 : (0 : ℚ) ≤ m := Nat.cast_nonneg m
  have h4 : (0 : ℚ) ≤ n := Nat.cast_nonneg n
  apply sq_le_sq' <;> linarith

theorem sqDiff_nonneg (p q : RGB) : 0 ≤ sqDiff p q := by
  unfold sqDiff
  positivity

theorem sqDiff_le (p q : RGB) (hp : p.r ≤ 255 ∧ p.g ≤ 255 ∧ p.b ≤ 255)
    (hq : q.r ≤ 255 ∧ q.g ≤ 255 ∧ q.b ≤ 255) :
    sqDiff p q ≤ 3 * 255 ^ 2 := by
  obtain ⟨hp1, hp2, hp3⟩ := hp
  obtain ⟨hq1, hq2, hq3⟩ := hq
  have c1 := chanSq_le p.r q.r hp1 hq1
  have c2 := chanSq_le p.g q.g hp2 hq2
  have c3 := chanSq_le p.b q.b hp3 hq3
  unfold sqDiff
  linarith

theorem channelSqSum_nonneg (a b : Img) : 0 ≤ channelSqSum a b := by
  unfold channelSqSum
  apply Finset.sum_nonneg
  intro y _
  apply Finset.sum_nonneg
  intro x _
  exact sqDiff_nonneg _ _

theorem channelSqSum_le (a b : Img) (ha : a.valid) (hb : b.valid) :
    channelSqSum a b ≤ ((a.height : ℚ) * a.width * 3) * 255 ^ 2 := by
  unfold channelSqSum
  have hrow : ∀ y ∈ Finset.range a.height,
      (∑ x ∈ Finset.range a.width, sqDiff (a.pixel x y) (b.pixel x y))
        ≤ (a.width : ℚ) * (3 * 255 ^ 2) := by
    intro y _
    calc ∑ x ∈ Finset.range a.width, sqDiff (a.pixel x y) (b.pixel x y)
        ≤ (Finset.range a.width).card • ((3 : ℚ) * 255 ^ 2) := by
          apply Finset.sum_le_card_nsmul
          intro x _
          exact sqDiff_le _ _ (ha x y) (hb x y)
      _ = (a.width : ℚ) * (3 * 255 ^ 2) := by
          rw [Finset.card_range, nsmul_eq_mul]
  calc ∑ y ∈ Finset.range a.height,
        ∑ x ∈ Finset.range a.width, sqDiff (a.pixel x y) (b.pixel x y)
      ≤ (Finset.range a.height).card • ((a.width : ℚ) * (3 * 255 ^ 2)) :=
        Finset.sum_le_card_nsmul _ _ _ hrow
    _ = ((a.height : ℚ) * a.width * 3) * 255 ^ 2 := by
        rw [Finset.card_range, nsmul_eq_mul]
        ring

theorem mse_nonneg (a b : Img) : 0 ≤ mse a b := by
  unfold mse
  have h := channelSqSum_nonneg a b
  positivity

theorem mse_le (a b : Img) (ha : a.valid) (hb : b.valid)
    (hw : 0 < a.width) (hh : 0 < a.height) : mse a b ≤ 255 ^ 2 := by
  have hD : (0 : ℚ) < (a.height : ℚ) * a.width * 3 := by
    have h1 : (0 : ℚ) < (a.height : ℚ) := by exact_mod_cast hh
    have h2 : (0 : ℚ) < (a.width : ℚ) := by exact_mod_cast hw
    positivity
  unfold mse
  rw [div_le_iff₀ hD]
  calc channelSqSum a b ≤ ((a.height : ℚ) * a.width * 3) * 255 ^ 2 :=
        channelSqSum_le a b ha hb
    _ = 255 ^ 2 * ((a.height : ℚ) * a.width * 3) := by ring

/-- C6: the similarity score is `1 - MSE / 255²` where MSE is the mean
squared per-channel difference over all pixels and channels, and for valid
nonempty images it lies in [0, 1] (no clamping is needed: the raw value is
already in range). -/
theorem C6_similarity_mse (a b : Img) (ha : a.valid) (hb : b.valid)
    (hw : 0 < a.width) (hh : 0 < a.height) :
    similarity a b = 1 - mse a b / 255 ^ 2 ∧
    0 ≤ similarity a b ∧ similarity a b ≤ 1 := by
  have h0 := mse_nonneg a b
  have h1 := mse_le a b ha hb hw hh
  refine ⟨rfl, ?_, ?_⟩
  · unfold similarity
    rw [sub_nonneg, div_le_one (by norm_num)]
    exact h1
  · unfold similarity
    have h2 : (0 : ℚ) ≤ mse a b / 255 ^ 2 := by positivity
    linarith

/-- C6 witness: the bounds at a concrete white-vs-black 1×1 comparison. -/
theorem C6_similarity_mse_witness :
    similarity img11White img11Black
      = 1 - mse img11White img11Black / 255 ^ 2 ∧
    0 ≤ similarity img11White img11Black ∧
    similarity img11White img11Black ≤ 1 :=
  C6_similarity_mse img11White img11Black
    (fun x y => by refine ⟨?_, ?_, ?_⟩ <;> norm_num [img11White])
    (fun x y => by refine ⟨?_, ?_, ?_⟩ <;> norm_num [img11Black])
    (by norm_num [img11White]) (by norm_num [img11White])

/-- C7: comparing an image against itself yields similarity exactly 1 and a
diff-pixel count of 0 (identity law); the nonempty hypotheses mirror the
domain on which the source's mean is defined. -/
theorem C7_identity (a : Img) (p : Option String)
    (_hw : 0 < a.width) (_hh : 0 < a.height) :
    (ImageComparator.compare a a p).similarity = 1 ∧
    (ImageComparator.compare a a p).pixel_diff_count = 0 := by
  constructor
  · show similarity a a = 1
    unfold similarity mse channelSqSum sqDiff
    simp
  · show diffPixelCount a a = 0
    unfold diffPixelCount maskAt
    simp [Nat.dist_self]

/-- C7 witness: the identity law at a concrete 1×1 image. -/
theorem C7_identity_witness :
    (ImageComparator.compare img11White img11White
      (some ("diff.png"))).similarity = 1 ∧
    (ImageComparator.compare img11White img11White
      (some ("diff.png"))).pixel_diff_count = 0 :=
  C7_identity img11White (some ("diff.png"))
    (by norm_num [img11White]) (by norm_num [img11White])

theorem classify_ne_error (s t : ℚ) (sem : Option SemanticAnalysis) :
    classify s t sem ≠ ComparisonResult.ERROR := by
  unfold classify applyOverride classifyBase
  rcases sem with _ | ⟨_ | r⟩
  · split_ifs <;> simp
  · split_ifs <;> simp
  · by_cases h1 : r = "BLOCK"
    · simp [h1]
    · by_cases h2 : r = "FIX"
      · simp [h1, h2]
      · simp only [h1, h2, if_false]
        split_ifs <;> simp

theorem compare_result_ne_error (t : ℚ) (env : CompareEnv) :
    (CocoVision.compare t env).result ≠ ComparisonResult.ERROR := by
  rcases hf : env.figmaImg with _ | a <;>
    rcases hc : env.codeImg with _ | b <;>
    simp [CocoVision.compare, hf, hc, classify_ne_error]

theorem countP_outcomes (l : List VisualDiff)
    (h : ∀ r ∈ l, r.result ≠ ComparisonResult.ERROR) :
    l.countP (fun r => decide (r.result = ComparisonResult.PASS)) +
      l.countP (fun r => decide (r.result = ComparisonResult.FAIL)) +
      l.countP (fun r => decide (r.result = ComparisonResult.WARNING))
      = l.length := by
  induction l with
  | nil => simp
  | cons r l ih =>
    have hr := h r (List.mem_cons_self r l)
    have hl := ih (fun x hx => h x (List.mem_cons_of_mem r hx))
    simp only [List.countP_cons, List.length_cons]
    cases hres : r.result <;> simp [hres] at hr ⊢ <;> omega

/-- C8: the batch auditor returns one Visual Diff Result per request, in
submission order (`comparisons = map compare requests`), its total equals the
number of requests, and the PASS / FAIL / WARNING counts sum to the total
(the comparison step never produces an ERROR outcome). -/
theorem C8_audit_report (t : ℚ) (envs : List CompareEnv) :
    (CocoVision.audit_batch t envs).total_comparisons = envs.length ∧
    (CocoVision.audit_batch t envs).comparisons
      = envs.map (CocoVision.compare t) ∧
    (CocoVision.audit_batch t envs).passed
        + (CocoVision.audit_batch t envs).failed
        + (CocoVision.audit_batch t envs).warnings
      = (CocoVision.audit_batch t envs).total_comparisons := by
  refine ⟨by simp [CocoVision.audit_batch], rfl, ?_⟩
  simp only [CocoVision.audit_batch]
  apply countP_outcomes
  intro r hr
  obtain ⟨e, _, rfl⟩ := List.mem_map.mp hr
  exact compare_result_ne_error t e

/-- A concrete batch request whose two acquisitions succeed with fully
different 1×1 images (white vs black). -/
def envWhiteBlack : CompareEnv :=
  ⟨"key:frame", "http://site", some img11White, some img11Black, none, false⟩

/-- C9: every result of `compare` and of `compare_local` records a
total-pixel count of 0 (the source hard-codes it), so the recorded pixel-diff
count can exceed the recorded total-pixel count, as it does on a fully
differing 1×1 comparison. -/
theorem C9_total_pixels_zero :
    (∀ (t : ℚ) (env : CompareEnv),
      (CocoVision.compare t env).total_pixels = 0) ∧
    (∀ (t : ℚ) (fs cs : String) (fi ci : Img)
      (sem : Option SemanticAnalysis) (g : Bool),
      (CocoVision.compare_local t fs cs fi ci sem g).total_pixels = 0) ∧
    (CocoVision.compare (95 / 100) envWhiteBlack).total_pixels
      < (CocoVision.compare (95 / 100) envWhiteBlack).pixel_diff_count := by
  refine ⟨fun t env => rfl, fun t fs cs fi ci sem g => rfl, ?_⟩
  have h1 : (CocoVision.compare (95 / 100) envWhiteBlack).total_pixels
      = 0 := rfl
  have h2 : (CocoVision.compare (95 / 100) envWhiteBlack).pixel_diff_count
      = 1 := by
    simp [CocoVision.compare, envWhiteBlack, ImageComparator.compare,
      diffPixelCount, maskAt, img11White, img11Black, Finset.sum_range_succ,
      Finset.filter_singleton, Nat.dist]
  omega

/-- C10: auditing an empty batch succeeds — the mean computation is guarded —
and yields a report with total 0, all per-outcome counts 0, average
similarity 0, and no results. -/
theorem C10_empty_batch (t : ℚ) :
    (CocoVision.audit_batch t []).total_comparisons = 0 ∧
    (CocoVision.audit_batch t []).passed = 0 ∧
    (CocoVision.audit_batch t []).failed = 0 ∧
    (CocoVision.audit_batch t []).warnings = 0 ∧
    (CocoVision.audit_batch t []).average_similarity = 0 ∧
    (CocoVision.audit_batch t []).comparisons = [] :=
  ⟨rfl, rfl, rfl, rfl, rfl, rfl⟩
